import Mathlib

/-!
Verification of the booking-availability core of the alx travel app
backend, embedded from listings/views.py: calendar-date parsing, the
half-open interval overlap test, the availability checker, profile
promotion on listing and booking creation, per-action permissions and
listing query scoping.
-/

/-- Calendar date with numeric year, month and day fields, as produced by
the CPython datetime.strptime call in the source. -/
structure Date where
  year : Nat
  month : Nat
  day : Nat
  deriving DecidableEq, Repr

/-- Chronological key of a date. For month in 1..12 and day in 1..31 this
orders dates exactly as the Django date comparison used by the filters. -/
def Date.key (d : Date) : Nat :=
  d.year * 10000 + d.month * 100 + d.day

/-- Strict chronological order on dates, the comparison behind the
start_date__lt and end_date__gt lookups of the booking filter. -/
def Date.lt (a b : Date) : Bool :=
  a.key < b.key

/-- Splits a character list at each dash, mirroring the field structure of
the %Y-%m-%d format string. -/
def splitDash : List Char → List (List Char)
  | [] => [[]]
  | c :: cs =>
    let r := splitDash cs
    if c == '-' then [] :: r
    else
      match r with
      | [] => [[c]]
      | f :: fs => (c :: f) :: fs

/-- Tests that every character of the field is an ASCII digit. -/
def allDigits (cs : List Char) : Bool :=
  cs.all (fun c => c.isDigit)

/-- Numeric value of a digit field. -/
def digitsVal (cs : List Char) : Nat :=
  cs.foldl (fun acc c => acc * 10 + (c.toNat - 48)) 0

/-- Gregorian leap-year rule used by the Python date type. -/
def isLeapYear (y : Nat) : Bool :=
  y % 4 == 0 && (y % 100 != 0 || y % 400 == 0)

/-- Number of days of a month in the proleptic Gregorian calendar. -/
def daysInMonth (y m : Nat) : Nat :=
  if m == 2 then (if isLeapYear y then 29 else 28)
  else if m == 4 || m == 6 || m == 9 || m == 11 then 30
  else 31

/-- Model of datetime.strptime(s, %Y-%m-%d).date() as called on lines
219-220 and 390-391 of the source: the year field is exactly four digits,
the month and day fields are one or two digits, the whole string must be
consumed, and the result must be a valid calendar date with year at least
1 (datetime.MINYEAR). Returns none exactly when CPython raises
ValueError for the ASCII inputs the API documents. -/
def parseDate (s : String) : Option Date :=
  match splitDash s.toList with
  | [ys, ms, ds] =>
    if allDigits ys && allDigits ms && allDigits ds &&
        ys.length == 4 && decide (1 ≤ ms.length) && ms.length ≤ 2 &&
        decide (1 ≤ ds.length) && ds.length ≤ 2 then
      let y := digitsVal ys
      let m := digitsVal ms
      let d := digitsVal ds
      if 1 ≤ y && 1 ≤ m && m ≤ 12 && 1 ≤ d && d ≤ daysInMonth y m then
        some ⟨y, m, d⟩
      else none
    else none
  | _ => none

/-- Role string written by the creation flows. -/
def hostRole : String := "host"

/-- Role string of an ordinary principal. -/
def guestRole : String := "guest"

/-- Booking status blocking availability. -/
def pendingStatus : String := "pending"

/-- Booking status blocking availability. -/
def confirmedStatus : String := "confirmed"

/-- Booking status that never blocks availability. -/
def cancelledStatus : String := "cancelled"

/-- Listing approval status required by the list action. -/
def approvedStatus : String := "approved"

/-- Listing approval status of a new listing awaiting moderation. -/
def listingPendingStatus : String := "pending"

/-- Name the 400-response branches try to resolve. -/
def statusName : String := "status"

/-- Misspelled name read on line 381 of the source. -/
def reuestName : String := "reuest"

/-- Empty string, the other falsy string value. -/
def emptyString : String := ""

/-- Error message of the missing-parameter branch. -/
def requiredMsg : String := "start_date and end_date parameters are required."

/-- Error message of the unparsable-date branch. -/
def invalidDateMsg : String := "Invalid date format. Use YYYY-MM-DD"

/-- Booking row: primary key, listing reference (property), owning user,
status string and half-open stay interval, per the fields the source
filters on (lines 229-234) and the spec data model. -/
structure Booking where
  booking_id : Nat
  property : Nat
  user : Nat
  status : String
  start_date : Date
  end_date : Date
  deriving DecidableEq, Repr

/-- Filter predicate of the conflicting_bookings query (lines 229-234 and
398-403): same listing, status in pending or confirmed,
start_date__lt=end_date and end_date__gt=start_date. -/
def conflictFilter (listing : Nat) (start_date end_date : Date) (b : Booking) : Bool :=
  b.property == listing &&
    (b.status == pendingStatus || b.status == confirmedStatus) &&
    Date.lt b.start_date end_date &&
    Date.lt start_date b.end_date

/-- Names bound at module level of listings/views.py by its import
statements (lines 10-29). The name status is absent because
rest_framework status is never imported, and the name reuest is bound
nowhere at all. -/
def moduleScope : List String :=
  ["viewsets", "permissions", "action", "Response", "DjangoFilterBackend",
   "get_object_or_404", "User", "Q", "Avg", "date", "datetime", "timedelta",
   "UserProfile", "Listing", "Booking", "Review", "UserProfileSerializer",
   "ListingSerializer", "BookingSerializer", "ReviewSerializer",
   "ListingFilter", "BookingFilter"]

/-- Python runtime errors the embedded functions can raise. -/
inductive PyError where
  | nameError (n : String)
  | unboundLocalError (n : String)
  deriving DecidableEq, Repr

/-- Payload of the success Response of the availability action
(lines 238-243). -/
structure AvailOk where
  available : Bool
  start_date : Date
  end_date : Date
  conflicting_bookings : Nat
  deriving DecidableEq, Repr

/-- Responses an availability action can produce. -/
inductive AvailResult where
  | badRequest (msg : String)
  | success (r : AvailOk)
  deriving DecidableEq, Repr

deriving instance DecidableEq for Except

/-- Truthiness test applied by the guards on lines 213 and 384: a query
parameter is falsy when missing or equal to the empty string. -/
def falsy : Option String → Bool
  | none => true
  | some s => s == emptyString

/-- Local names bound in the body of ListingViews.availability before any
use of the name status (the method parameters and lines 209-211). -/
def ListingViews.availabilityLocals : List String :=
  ["self", "request", "property_id", "listing", "start_date", "end_date"]

/-- Embedding of ListingViews.availability (lines 203-243). The listing
argument is the object resolved from the URL by get_object on line 209;
the two optional strings are the query parameters; db is the stored
booking table. The branches that build a 400 Response reference the name
status, which resolves in no scope, so they raise NameError instead of
returning the response. -/
def ListingViews.availability (listing : Nat) (start_date end_date : Option String)
    (db : List Booking) : Except PyError AvailResult :=
  if falsy start_date || falsy end_date then
    if (ListingViews.availabilityLocals ++ moduleScope).contains statusName then
      .ok (.badRequest requiredMsg)
    else .error (.nameError statusName)
  else
    match parseDate (start_date.getD emptyString), parseDate (end_date.getD emptyString) with
    | some s, some e =>
      let conflicting_bookings := db.filter (conflictFilter listing s e)
      .ok (.success
        { available := conflicting_bookings.isEmpty
          start_date := s
          end_date := e
          conflicting_bookings := conflicting_bookings.length })
    | _, _ =>
      if (ListingViews.availabilityLocals ++ moduleScope).contains statusName then
        .ok (.badRequest invalidDateMsg)
      else .error (.nameError statusName)

/-- Local names bound in the body of BookingViews.availability at the
moment line 381 runs (the method parameters and line 380). -/
def BookingViews.availabilityLocals : List String :=
  ["self", "request", "property_id", "listing"]

set_option linter.unusedVariables false in
/-- Embedding of BookingViews.availability (lines 374-405). Line 381 reads
reuest.query_params: the name reuest is bound in no scope, so the body
raises NameError before reading any query parameter. Were that name
resolvable, the remaining body would mirror the listing-side checker but
fall off the end without a return statement, which Python reports as a
None value, modelled by Option.none in the success type. -/
def BookingViews.availability (listing : Nat) (start_date end_date : Option String)
    (db : List Booking) : Except PyError (Option AvailResult) :=
  if (BookingViews.availabilityLocals ++ moduleScope).contains reuestName then
    if falsy start_date || falsy end_date then
      if (BookingViews.availabilityLocals ++ moduleScope).contains statusName then
        .ok (some (.badRequest requiredMsg))
      else .error (.nameError statusName)
    else
      match parseDate (start_date.getD emptyString), parseDate (end_date.getD emptyString) with
      | some s, some e =>
        let conflicting_bookings := db.filter (conflictFilter listing s e)
        let is_available := conflicting_bookings.isEmpty
        .ok none
      | _, _ =>
        if (BookingViews.availabilityLocals ++ moduleScope).contains statusName then
          .ok (some (.badRequest invalidDateMsg))
        else .error (.nameError statusName)
  else .error (.nameError reuestName)

/-- Spec notion from section 4.1: intervals [aS, aE) and [bS, bE) overlap
iff aS < bE and bS < aE; endpoint equality does not count as overlap. -/
def intervalsOverlap (aS aE bS bE : Date) : Prop :=
  Date.lt aS bE = true ∧ Date.lt bS aE = true

instance (aS aE bS bE : Date) : Decidable (intervalsOverlap aS aE bS bE) := by
  unfold intervalsOverlap
  infer_instance

/-- Spec notion: an active booking has status pending or confirmed. -/
def Booking.isActive (b : Booking) : Prop :=
  b.status = pendingStatus ∨ b.status = confirmedStatus

instance (b : Booking) : Decidable (Booking.isActive b) := by
  unfold Booking.isActive
  infer_instance

/-- Number of active bookings of the given listing whose stay interval
overlaps [s, e), stated with the spec-side vocabulary. -/
def activeConflictCount (db : List Booking) (listing : Nat) (s e : Date) : Nat :=
  db.countP (fun b =>
    decide (b.property = listing ∧ Booking.isActive b ∧
      intervalsOverlap b.start_date b.end_date s e))

/-- Profile row: principal id and role, the fields the creation flows
read and write (lines 175-183). -/
structure Profile where
  user : Nat
  role : String
  deriving DecidableEq, Repr

/-- Listing row: primary key, owning host principal and approval status,
the fields the query scoping and creation flows touch. -/
structure Listing where
  property_id : Nat
  host : Nat
  status : String
  deriving DecidableEq, Repr

/-- Persistent store visible to the embedded operations. -/
structure AppState where
  profiles : List Profile
  listings : List Listing
  bookings : List Booking
  deriving DecidableEq, Repr

/-- Model of UserProfile.objects.get_or_create(user=..., defaults=...)
(lines 175-178 and 345-348): the user field is unique, so the lookup is by
principal; when no row exists one is inserted with the default role and
committed at once. Returns the row, the created flag and the updated
table. -/
def UserProfile.get_or_create (ps : List Profile) (u : Nat) (defaultRole : String) :
    Profile × Bool × List Profile :=
  match ps.find? (fun p => p.user == u) with
  | some p => (p, false, ps)
  | none => (⟨u, defaultRole⟩, true, ps ++ [⟨u, defaultRole⟩])

/-- Model of user_profile.save() (lines 183 and 353): updates the row of
that principal in place. -/
def profileSave (ps : List Profile) (p : Profile) : List Profile :=
  ps.map (fun q => if q.user == p.user then p else q)

/-- Shared body of the two perform_create methods (lines 174-183 and
345-353, duplicated verbatim in the source): get or create the profile of
the acting principal with default role host, then promote it to host in
place when its role differs. Returns the profile passed to
serializer.save together with the updated profile table. -/
def hostEnsure (ps : List Profile) (u : Nat) : Profile × List Profile :=
  let gc := UserProfile.get_or_create ps u hostRole
  let user_profile := gc.1
  let ps1 := gc.2.2
  if user_profile.role ≠ hostRole then
    let p' := { user_profile with role := hostRole }
    (p', profileSave ps1 p')
  else (user_profile, ps1)

/-- Booking request payload: listing reference and stay interval. -/
structure BookingReq where
  property : Nat
  start_date : Date
  end_date : Date
  deriving DecidableEq, Repr

/-- Embedding of ListingViews.perform_create (lines 171-185) acting for
principal u. The saveOk flag is the outcome of the external
serializer.save call: on success the new listing row is persisted, on
failure nothing further is written, but the profile writes made before
the save are already committed, since no transaction wraps the method.
Modelled from the spec: the persisted row of a new listing (model and
serializer files absent from src) carries the acting profile as host and
awaits approval. -/
def ListingViews.perform_create (u : Nat) (saveOk : Bool) (st : AppState) :
    AppState × Bool :=
  let hp := hostEnsure st.profiles u
  let st1 := { st with profiles := hp.2 }
  if saveOk then
    ({ st1 with listings :=
        st1.listings ++ [⟨st1.listings.length, hp.1.user, listingPendingStatus⟩] }, true)
  else (st1, false)

/-- Embedding of the effective BookingViews.perform_create (lines 341-355,
the second definition of that name, which in Python shadows the first):
identical profile logic, then serializer.save persists the booking.
Modelled from the spec: the persisted row of a new booking (model and
serializer files absent from src) carries the requested listing and
interval, the acting profile as owner, and starts in the active status
pending. No availability check is made before the save. -/
def BookingViews.perform_create (u : Nat) (r : BookingReq) (saveOk : Bool) (st : AppState) :
    AppState × Bool :=
  let hp := hostEnsure st.profiles u
  let st1 := { st with profiles := hp.2 }
  if saveOk then
    ({ st1 with bookings :=
        st1.bookings ++ [⟨st1.bookings.length, r.property, hp.1.user, pendingStatus,
          r.start_date, r.end_date⟩] }, true)
  else (st1, false)

/-- REST actions a ModelViewSet dispatches. -/
inductive DRFAction where
  | list
  | retrieve
  | create
  | update
  | destroy
  deriving DecidableEq, Repr

/-- Permission classes named in the source. -/
inductive Permission where
  | allowAny
  | isAuthenticated
  | isAuthenticatedOrReadOnly
  deriving DecidableEq, Repr

/-- Local name the return statement of get_permissions reads. -/
def permissionClassesName : String := "permission_classes"

/-- Embedding of ListingViews.get_permissions (lines 157-169). The else
branch assigns only the misspelled local permission_classess, so for the
update and destroy actions the comprehension on line 169 reads the
never-assigned local permission_classes and Python raises
UnboundLocalError. -/
def ListingViews.get_permissions (a : DRFAction) : Except PyError (List Permission) :=
  if a = .list ∨ a = .retrieve then .ok [.allowAny]
  else if a = .create then .ok [.isAuthenticated]
  else .error (.unboundLocalError permissionClassesName)

/-- Embedding of BookingViews.get_permissions (lines 316-325): every
branch assigns a local permission list, but the method has no return
statement, so Python returns None whatever the action. -/
def BookingViews.get_permissions (a : DRFAction) : Option (List Permission) :=
  if a = .list ∨ a = .retrieve then none
  else if a = .create then none
  else none

/-- Embedding of ListingViews.get_queryset (lines 144-154): the list
action sees only approved listings, every other action the unrestricted
table. -/
def ListingViews.get_queryset (a : DRFAction) (listings : List Listing) : List Listing :=
  if a = .list then listings.filter (fun l => l.status == approvedStatus)
  else listings

/-- Retrieval of one listing by primary key over the queryset of the
retrieve action, the lookup get_object performs (lookup_field
property_id, line 135). -/
def ListingViews.retrieveAction (pid : Nat) (listings : List Listing) : Option Listing :=
  (ListingViews.get_queryset .retrieve listings).find? (fun l => l.property_id == pid)

/-- Empty store. -/
def initialState : AppState := ⟨[], [], []⟩

/-- States reachable through the creation operations of the program, with
either outcome of the external save. The availability actions are
read-only and change no state. -/
inductive Reachable : AppState → Prop where
  | init : Reachable initialState
  | createListing (u : Nat) (ok : Bool) (st : AppState) :
      Reachable st → Reachable (ListingViews.perform_create u ok st).1
  | createBooking (u : Nat) (r : BookingReq) (ok : Bool) (st : AppState) :
      Reachable st → Reachable (BookingViews.perform_create u r ok st).1

/-- Availability check of section 4.2 as a guard: the conflict filter of
the checker, applied to the current bookings with the requested listing
and interval, finds no conflicting booking. -/
def availabilityGuard (st : AppState) (r : BookingReq) : Bool :=
  (st.bookings.filter (conflictFilter r.property r.start_date r.end_date)).isEmpty

/-- States reachable when every successful booking creation is performed
only after the availability check of section 4.2 reports no conflict on
the current state. -/
inductive GuardedReachable : AppState → Prop where
  | init : GuardedReachable initialState
  | createListing (u : Nat) (ok : Bool) (st : AppState) :
      GuardedReachable st → GuardedReachable (ListingViews.perform_create u ok st).1
  | createBooking (u : Nat) (r : BookingReq) (st : AppState) :
      availabilityGuard st r = true →
      GuardedReachable st → GuardedReachable (BookingViews.perform_create u r true st).1
  | createBookingFailed (u : Nat) (r : BookingReq) (st : AppState) :
      GuardedReachable st → GuardedReachable (BookingViews.perform_create u r false st).1

/-- Spec invariant (section 8): no two distinct active bookings on the
same listing have overlapping intervals. -/
def NoOverlapInvariant (st : AppState) : Prop :=
  ∀ a ∈ st.bookings, ∀ b ∈ st.bookings,
    a ≠ b → a.property = b.property → Booking.isActive a → Booking.isActive b →
    ¬ intervalsOverlap a.start_date a.end_date b.start_date b.end_date

instance (st : AppState) : Decidable (NoOverlapInvariant st) := by
  unfold NoOverlapInvariant
  infer_instance

/-- Role of the profile of a principal, none when no profile exists. -/
def profileRole (ps : List Profile) (u : Nat) : Option String :=
  (ps.find? (fun p => p.user == u)).map (fun p => p.role)

/-! Helper lemmas about the embedded operations. -/

lemma conflictFilter_eq_decide (listing : Nat) (s e : Date) (b : Booking) :
    conflictFilter listing s e b =
      decide (b.property = listing ∧ Booking.isActive b ∧
        intervalsOverlap b.start_date b.end_date s e) := by
  rw [Bool.eq_iff_iff]
  simp [conflictFilter, Booking.isActive, intervalsOverlap, and_assoc]

lemma conflict_length_eq (db : List Booking) (listing : Nat) (s e : Date) :
    (db.filter (conflictFilter listing s e)).length = activeConflictCount db listing s e := by
  rw [activeConflictCount, List.countP_eq_length_filter]
  exact congrArg List.length
    (List.filter_congr (fun b _ => conflictFilter_eq_decide listing s e b))

lemma parse_ne_empty {ss : String} {s : Date} (hs : parseDate ss = some s) :
    (ss == emptyString) = false := by
  refine beq_eq_false_iff_ne.mpr ?_
  intro h
  subst h
  simp only [show parseDate emptyString = none from rfl] at hs
  exact Option.noConfusion hs

lemma availability_ok (listing : Nat) (ss es : String) (s e : Date) (db : List Booking)
    (hs : parseDate ss = some s) (he : parseDate es = some e) :
    ListingViews.availability listing (some ss) (some es) db =
      .ok (.success ⟨(db.filter (conflictFilter listing s e)).isEmpty, s, e,
        (db.filter (conflictFilter listing s e)).length⟩) := by
  have hss := parse_ne_empty hs
  have hes := parse_ne_empty he
  simp [ListingViews.availability, falsy, hss, hes, Option.getD_some, hs, he]

lemma profileSave_find (ps : List Profile) (u : Nat) (p pr : Profile)
    (hfind : ps.find? (fun q => q.user == u) = some p) (hu : pr.user = u) :
    (profileSave ps pr).find? (fun q => q.user == u) = some pr := by
  induction ps with
  | nil => exact Option.noConfusion hfind
  | cons q qs ih =>
    by_cases hq : (q.user == u) = true
    · have hq2 : (q.user == pr.user) = true := by rw [hu]; exact hq
      have hpr : (pr.user == u) = true := by simp [hu]
      simp only [profileSave, List.map_cons, hq2, if_true, if_pos]
      exact List.find?_cons_of_pos _ hpr
    · have hq3 : (q.user == u) = false := Bool.eq_false_iff.mpr hq
      have hq2 : (q.user == pr.user) = false := by rw [hu]; exact hq3
      have hfind2 : qs.find? (fun q => q.user == u) = some p := by
        rw [@List.find?_cons_of_neg _ (fun q => q.user == u) q qs hq] at hfind
        exact hfind
      have ihq := ih hfind2
      simp only [profileSave, List.map_cons, hq2, Bool.false_eq_true, if_false] at ihq ⊢
      rw [@List.find?_cons_of_neg _ (fun q => q.user == u) q _ hq]
      exact ihq

lemma hostEnsure_spec (ps : List Profile) (u : Nat) :
    (hostEnsure ps u).2 =
      (match ps.find? (fun p => p.user == u) with
       | none => ps ++ [⟨u, hostRole⟩]
       | some p =>
         if p.role == hostRole then ps else profileSave ps ⟨u, hostRole⟩) := by
  unfold hostEnsure UserProfile.get_or_create
  cases hf : ps.find? (fun p => p.user == u) with
  | none => simp
  | some p =>
    have hpu : p.user = u := by
      have h := List.find?_some hf
      simpa using h
    by_cases hr : p.role = hostRole
    · simp [hr]
    · have hpe : ({ p with role := hostRole } : Profile) = ⟨u, hostRole⟩ := by
        cases p
        simp_all
      simp [hr, hpe]

lemma hostEnsure_find (ps : List Profile) (u : Nat) :
    (hostEnsure ps u).2.find? (fun p => p.user == u) = some ⟨u, hostRole⟩ := by
  rw [hostEnsure_spec]
  cases hf : ps.find? (fun p => p.user == u) with
  | none =>
    rw [List.find?_append, hf]
    simp [List.find?]
  | some p =>
    have hpu : p.user = u := by
      have h := List.find?_some hf
      simpa using h
    show (if (p.role == hostRole) = true then ps
      else profileSave ps ⟨u, hostRole⟩).find? (fun p => p.user == u) = some ⟨u, hostRole⟩
    by_cases hr : p.role = hostRole
    · have hpe : p = (⟨u, hostRole⟩ : Profile) := by
        cases p
        simp_all
      rw [if_pos (by simp [hr]), hf, hpe]
    · rw [if_neg (by simp [beq_eq_false_iff_ne.mpr hr])]
      exact profileSave_find ps u p ⟨u, hostRole⟩ hf rfl

lemma hostEnsure_role (ps : List Profile) (u : Nat) :
    profileRole (hostEnsure ps u).2 u = some hostRole := by
  rw [profileRole, hostEnsure_find]
  rfl

lemma hostEnsure_idem (ps : List Profile) (u : Nat) :
    (hostEnsure (hostEnsure ps u).2 u).2 = (hostEnsure ps u).2 := by
  conv_lhs => rw [hostEnsure_spec]
  rw [hostEnsure_find]
  simp

lemma listing_create_profiles_eq (u : Nat) (ok : Bool) (st : AppState) :
    (ListingViews.perform_create u ok st).1.profiles = (hostEnsure st.profiles u).2 := by
  cases ok <;> rfl

lemma booking_create_profiles_eq (u : Nat) (r : BookingReq) (ok : Bool)
    (st : AppState) :
    (BookingViews.perform_create u r ok st).1.profiles = (hostEnsure st.profiles u).2 := by
  cases ok <;> rfl

lemma listing_create_bookings_eq (u : Nat) (ok : Bool) (st : AppState) :
    (ListingViews.perform_create u ok st).1.bookings = st.bookings := by
  cases ok <;> rfl

lemma booking_create_bookings_true (u : Nat) (r : BookingReq) (st : AppState) :
    (BookingViews.perform_create u r true st).1.bookings =
      st.bookings ++ [⟨st.bookings.length, r.property, (hostEnsure st.profiles u).1.user,
        pendingStatus, r.start_date, r.end_date⟩] := rfl

lemma booking_create_bookings_false (u : Nat) (r : BookingReq) (st : AppState) :
    (BookingViews.perform_create u r false st).1.bookings = st.bookings := rfl

lemma noOverlap_of_bookings_eq {st1 st2 : AppState} (h : st2.bookings = st1.bookings)
    (hinv : NoOverlapInvariant st1) : NoOverlapInvariant st2 := by
  unfold NoOverlapInvariant at hinv ⊢
  rw [h]
  exact hinv

lemma guard_pointwise {st : AppState} {r : BookingReq} (hg : availabilityGuard st r = true) :
    ∀ b ∈ st.bookings, conflictFilter r.property r.start_date r.end_date b = false := by
  intro b hb
  have h1 : st.bookings.filter (conflictFilter r.property r.start_date r.end_date) = [] :=
    List.isEmpty_iff.mp hg
  exact Bool.eq_false_iff.mpr (List.filter_eq_nil_iff.mp h1 b hb)

lemma noOverlap_insert (st : AppState) (u : Nat) (r : BookingReq)
    (hinv : NoOverlapInvariant st) (hg : availabilityGuard st r = true) :
    NoOverlapInvariant (BookingViews.perform_create u r true st).1 := by
  intro a ha b hb hne hprop hactA hactB hov
  rw [booking_create_bookings_true] at ha hb
  unfold intervalsOverlap at hov
  rcases List.mem_append.mp ha with haOld | haNew
  · rcases List.mem_append.mp hb with hbOld | hbNew
    · refine hinv a haOld b hbOld hne hprop hactA hactB ?_
      unfold intervalsOverlap
      exact hov
    · have hbEq : b = ⟨st.bookings.length, r.property, (hostEnsure st.profiles u).1.user,
          pendingStatus, r.start_date, r.end_date⟩ := by simpa using hbNew
      have hbs : b.start_date = r.start_date := by rw [hbEq]
      have hbe : b.end_date = r.end_date := by rw [hbEq]
      have hbp : b.property = r.property := by rw [hbEq]
      have hcf := guard_pointwise hg a haOld
      have hPropA : (a.property == r.property) = true := by
        rw [beq_iff_eq, hprop, hbp]
      have hStat : (a.status == pendingStatus || a.status == confirmedStatus) = true := by
        rcases hactA with h | h <;> simp [h]
      obtain ⟨h1, h2⟩ := hov
      rw [hbe] at h1
      rw [hbs] at h2
      simp [conflictFilter, hPropA, hStat, h1, h2] at hcf
  · rcases List.mem_append.mp hb with hbOld | hbNew
    · have haEq : a = ⟨st.bookings.length, r.property, (hostEnsure st.profiles u).1.user,
          pendingStatus, r.start_date, r.end_date⟩ := by simpa using haNew
      have has : a.start_date = r.start_date := by rw [haEq]
      have hae : a.end_date = r.end_date := by rw [haEq]
      have hap : a.property = r.property := by rw [haEq]
      have hcf := guard_pointwise hg b hbOld
      have hPropB : (b.property == r.property) = true := by
        rw [beq_iff_eq, ← hprop, hap]
      have hStat : (b.status == pendingStatus || b.status == confirmedStatus) = true := by
        rcases hactB with h | h <;> simp [h]
      obtain ⟨h1, h2⟩ := hov
      rw [has] at h1
      rw [hae] at h2
      simp [conflictFilter, hPropB, hStat, h1, h2] at hcf
    · have haEq : a = ⟨st.bookings.length, r.property, (hostEnsure st.profiles u).1.user,
          pendingStatus, r.start_date, r.end_date⟩ := by simpa using haNew
      have hbEq : b = ⟨st.bookings.length, r.property, (hostEnsure st.profiles u).1.user,
          pendingStatus, r.start_date, r.end_date⟩ := by simpa using hbNew
      exact hne (haEq.trans hbEq.symm)

lemma find?_of_mem_nodup (db : List Listing) (l : Listing)
    (hnd : (db.map (fun x => x.property_id)).Nodup) (hmem : l ∈ db) :
    db.find? (fun x => x.property_id == l.property_id) = some l := by
  induction db with
  | nil => exact absurd hmem (List.not_mem_nil l)
  | cons d ds ih =>
    rcases List.mem_cons.mp hmem with rfl | hmem2
    · exact List.find?_cons_of_pos _ (by simp)
    · rw [List.map_cons, List.nodup_cons] at hnd
      by_cases hd : (d.property_id == l.property_id) = true
      · exfalso
        have hmap : l.property_id ∈ ds.map (fun x => x.property_id) :=
          List.mem_map.mpr ⟨l, hmem2, rfl⟩
        exact hnd.1 ((beq_iff_eq.mp hd) ▸ hmap)
      · rw [@List.find?_cons_of_neg _ (fun x => x.property_id == l.property_id) d ds hd]
        exact ih hnd.2 hmem2


/-! Claim theorems. -/

/-- C1: for every listing and every pair of well-formed dates, the
availability check succeeds and reports available=true iff zero active
bookings of that listing overlap the queried half-open interval, and the
returned conflict count equals the number of such bookings. -/
theorem availability_iff_no_active_overlap (listing : Nat) (ss es : String) (s e : Date)
    (db : List Booking) (hs : parseDate ss = some s) (he : parseDate es = some e) :
    ∃ r : AvailOk, ListingViews.availability listing (some ss) (some es) db =
        .ok (.success r) ∧
      (r.available = true ↔ activeConflictCount db listing s e = 0) ∧
      r.conflicting_bookings = activeConflictCount db listing s e ∧
      r.start_date = s ∧ r.end_date = e := by
  refine ⟨_, availability_ok listing ss es s e db hs he, ?_, ?_, rfl, rfl⟩
  · rw [← conflict_length_eq]
    simp [List.isEmpty_iff, List.length_eq_zero]
  · exact conflict_length_eq db listing s e

/-- Witness for C1 at the dataset of spec section 8: a confirmed booking
2024-01-03 to 2024-01-04 conflicts with the query 2024-01-01 to
2024-01-10. -/
theorem availability_iff_no_active_overlap_witness :
    ∃ r : AvailOk, ListingViews.availability 1 (some ("2024-01-01")) (some ("2024-01-10"))
        [⟨0, 1, 9, confirmedStatus, ⟨2024, 1, 3⟩, ⟨2024, 1, 4⟩⟩] = .ok (.success r) ∧
      (r.available = true ↔
        activeConflictCount [⟨0, 1, 9, confirmedStatus, ⟨2024, 1, 3⟩, ⟨2024, 1, 4⟩⟩] 1
          ⟨2024, 1, 1⟩ ⟨2024, 1, 10⟩ = 0) ∧
      r.conflicting_bookings =
        activeConflictCount [⟨0, 1, 9, confirmedStatus, ⟨2024, 1, 3⟩, ⟨2024, 1, 4⟩⟩] 1
          ⟨2024, 1, 1⟩ ⟨2024, 1, 10⟩ ∧
      r.start_date = ⟨2024, 1, 1⟩ ∧ r.end_date = ⟨2024, 1, 10⟩ :=
  availability_iff_no_active_overlap 1 ("2024-01-01") ("2024-01-10") ⟨2024, 1, 1⟩
    ⟨2024, 1, 10⟩ [⟨0, 1, 9, confirmedStatus, ⟨2024, 1, 3⟩, ⟨2024, 1, 4⟩⟩]
    (by decide) (by decide)

/-- C2: the conflict test of the availability checker holds for a booking
of the queried listing with active status exactly when
start_date of the booking precedes the query end AND the query start
precedes end_date of the booking (half-open overlap); overlap is
symmetric; and two intervals sharing only the endpoint 2024-01-05 do not
overlap, so the checker reports available=true with zero conflicts. -/
theorem conflict_test_half_open :
    (∀ (listing : Nat) (s e : Date) (b : Booking), b.property = listing →
      Booking.isActive b →
      (conflictFilter listing s e b = true ↔
        (Date.lt b.start_date e = true ∧ Date.lt s b.end_date = true))) ∧
    (∀ aS aE bS bE : Date, intervalsOverlap aS aE bS bE ↔ intervalsOverlap bS bE aS aE) ∧
    ListingViews.availability 1 (some ("2024-01-05")) (some ("2024-01-10"))
        [⟨0, 1, 9, confirmedStatus, ⟨2024, 1, 1⟩, ⟨2024, 1, 5⟩⟩] =
      .ok (.success ⟨true, ⟨2024, 1, 5⟩, ⟨2024, 1, 10⟩, 0⟩) := by
  refine ⟨?_, ?_, by decide⟩
  · intro listing s e b hp hact
    have hProp : (b.property == listing) = true := by
      rw [beq_iff_eq]
      exact hp
    have hStat : (b.status == pendingStatus || b.status == confirmedStatus) = true := by
      rcases hact with h | h <;> simp [h]
    simp [conflictFilter, hProp, hStat]
  · intro aS aE bS bE
    unfold intervalsOverlap
    exact and_comm

/-- Witness for C2: the conflict test on the confirmed booking 2024-01-01
to 2024-01-05 of listing 1 against the query 2024-01-05 to 2024-01-10
reduces to the two half-open date comparisons. -/
theorem conflict_test_half_open_witness :
    conflictFilter 1 ⟨2024, 1, 5⟩ ⟨2024, 1, 10⟩
        ⟨0, 1, 9, confirmedStatus, ⟨2024, 1, 1⟩, ⟨2024, 1, 5⟩⟩ = true ↔
      (Date.lt (⟨2024, 1, 1⟩ : Date) ⟨2024, 1, 10⟩ = true ∧
        Date.lt (⟨2024, 1, 5⟩ : Date) ⟨2024, 1, 5⟩ = true) :=
  conflict_test_half_open.1 1 ⟨2024, 1, 5⟩ ⟨2024, 1, 10⟩
    ⟨0, 1, 9, confirmedStatus, ⟨2024, 1, 1⟩, ⟨2024, 1, 5⟩⟩ rfl (Or.inr rfl)

/-- Counterexample for C3: a state reached by two successful createBooking
calls holds two distinct active bookings of listing 1 with overlapping
intervals, so the no-overlap invariant fails on reachable states as the
claim stated it. -/
theorem reachable_overlap_counterexample :
    Reachable ((BookingViews.perform_create 7 ⟨1, ⟨2024, 1, 5⟩, ⟨2024, 1, 12⟩⟩ true
        (BookingViews.perform_create 7 ⟨1, ⟨2024, 1, 1⟩, ⟨2024, 1, 10⟩⟩ true
          initialState).1).1) ∧
    ¬ NoOverlapInvariant ((BookingViews.perform_create 7 ⟨1, ⟨2024, 1, 5⟩, ⟨2024, 1, 12⟩⟩ true
        (BookingViews.perform_create 7 ⟨1, ⟨2024, 1, 1⟩, ⟨2024, 1, 10⟩⟩ true
          initialState).1).1) :=
  ⟨Reachable.createBooking _ _ _ _ (Reachable.createBooking _ _ _ _ Reachable.init),
    by decide⟩

/-- C3 (amended): in every state reachable when each successful booking
creation is performed only after the availability check of section 4.2
reports no conflict on the current state, no two distinct active bookings
of the same listing have overlapping intervals. The implementation
performs no such check, and the counterexample shows the invariant fails
on its reachable states. -/
theorem guarded_reachable_no_overlap (st : AppState) (h : GuardedReachable st) :
    NoOverlapInvariant st := by
  induction h with
  | init => decide
  | createListing u ok st' h ih =>
    exact noOverlap_of_bookings_eq (listing_create_bookings_eq u ok st') ih
  | createBooking u r st' hg h ih => exact noOverlap_insert st' u r ih hg
  | createBookingFailed u r st' h ih =>
    exact noOverlap_of_bookings_eq (booking_create_bookings_false u r st') ih

/-- Witness for C3 (amended): two adjacent bookings 2024-01-01 to
2024-01-05 and 2024-01-05 to 2024-01-10 both pass the guard and the
resulting state satisfies the invariant. -/
theorem guarded_reachable_no_overlap_witness :
    NoOverlapInvariant ((BookingViews.perform_create 7 ⟨1, ⟨2024, 1, 5⟩, ⟨2024, 1, 10⟩⟩ true
        (BookingViews.perform_create 7 ⟨1, ⟨2024, 1, 1⟩, ⟨2024, 1, 5⟩⟩ true
          initialState).1).1) :=
  guarded_reachable_no_overlap _
    (GuardedReachable.createBooking 7 ⟨1, ⟨2024, 1, 5⟩, ⟨2024, 1, 10⟩⟩ _ (by decide)
      (GuardedReachable.createBooking 7 ⟨1, ⟨2024, 1, 1⟩, ⟨2024, 1, 5⟩⟩ _ (by decide)
        GuardedReachable.init))

/-- C4 evidence: with a confirmed booking 2024-01-01 to 2024-01-10 on
listing 1, the availability checker reports unavailable for 2024-01-03 to
2024-01-08, yet createBooking persists a second, overlapping booking and
reports success: the availability check of section 4.2 is never invoked
and no Conflict error is raised. -/
theorem createBooking_ignores_conflicts :
    ListingViews.availability 1 (some ("2024-01-03")) (some ("2024-01-08"))
        [⟨0, 1, 9, confirmedStatus, ⟨2024, 1, 1⟩, ⟨2024, 1, 10⟩⟩] =
      .ok (.success ⟨false, ⟨2024, 1, 3⟩, ⟨2024, 1, 8⟩, 1⟩) ∧
    (BookingViews.perform_create 7 ⟨1, ⟨2024, 1, 3⟩, ⟨2024, 1, 8⟩⟩ true
        ⟨[], [], [⟨0, 1, 9, confirmedStatus, ⟨2024, 1, 1⟩, ⟨2024, 1, 10⟩⟩]⟩).2 = true ∧
    (BookingViews.perform_create 7 ⟨1, ⟨2024, 1, 3⟩, ⟨2024, 1, 8⟩⟩ true
        ⟨[], [], [⟨0, 1, 9, confirmedStatus, ⟨2024, 1, 1⟩, ⟨2024, 1, 10⟩⟩]⟩).1.bookings.length
      = 2 :=
  ⟨by decide, rfl, rfl⟩

/-- C5: immediately after a successful createListing or createBooking the
acting principal has a profile with role host; the profile is created
with role host when absent and otherwise promoted to host in place; and a
second creation by the same principal leaves the profile table unchanged,
so the operation is idempotent on the profile. -/
theorem create_promotes_to_host (u : Nat) (r : BookingReq) (st : AppState) :
    profileRole (ListingViews.perform_create u true st).1.profiles u = some hostRole ∧
    profileRole (BookingViews.perform_create u r true st).1.profiles u = some hostRole ∧
    ((ListingViews.perform_create u true st).1.profiles =
      match st.profiles.find? (fun p => p.user == u) with
      | none => st.profiles ++ [⟨u, hostRole⟩]
      | some p => if p.role == hostRole then st.profiles
                  else profileSave st.profiles ⟨u, hostRole⟩) ∧
    ((BookingViews.perform_create u r true st).1.profiles =
      match st.profiles.find? (fun p => p.user == u) with
      | none => st.profiles ++ [⟨u, hostRole⟩]
      | some p => if p.role == hostRole then st.profiles
                  else profileSave st.profiles ⟨u, hostRole⟩) ∧
    (ListingViews.perform_create u true
        (ListingViews.perform_create u true st).1).1.profiles =
      (ListingViews.perform_create u true st).1.profiles ∧
    (BookingViews.perform_create u r true
        (BookingViews.perform_create u r true st).1).1.profiles =
      (BookingViews.perform_create u r true st).1.profiles := by
  refine ⟨?_, ?_, ?_, ?_, ?_, ?_⟩
  · rw [listing_create_profiles_eq]
    exact hostEnsure_role st.profiles u
  · rw [booking_create_profiles_eq]
    exact hostEnsure_role st.profiles u
  · rw [listing_create_profiles_eq]
    exact hostEnsure_spec st.profiles u
  · rw [booking_create_profiles_eq]
    exact hostEnsure_spec st.profiles u
  · simp only [listing_create_profiles_eq, hostEnsure_idem]
  · simp only [booking_create_profiles_eq, hostEnsure_idem]

/-- C6 evidence: when start_date or end_date is missing, or fails to parse
as a valid YYYY-MM-DD calendar date, the availability action reaches the
branch that builds a 400 response through the never-imported name status
and raises NameError, independently of the booking table (the branch
reads no bookings and writes nothing); the ValidationError response the
claim describes is never produced. -/
theorem missing_or_invalid_dates_raise_nameError :
    (∀ db : List Booking,
      ListingViews.availability 1 none (some ("2024-01-05")) db =
        .error (.nameError statusName)) ∧
    (∀ db : List Booking,
      ListingViews.availability 1 (some ("2024-01-05")) none db =
        .error (.nameError statusName)) ∧
    (∀ db : List Booking,
      ListingViews.availability 1 (some ("2024-01-01")) (some ("not-a-date")) db =
        .error (.nameError statusName)) ∧
    (∀ db : List Booking,
      ListingViews.availability 1 (some ("2024-02-30")) (some ("2024-03-01")) db =
        .error (.nameError statusName)) :=
  ⟨fun _ => rfl, fun _ => rfl, fun _ => rfl, fun _ => rfl⟩

/-- C7: the list action returns exactly the approved listings, every
other action operates over the unrestricted collection, and an unapproved
listing is absent from list results yet returned by a direct retrieve of
its ID when primary keys are unique. -/
theorem list_scoped_to_approved (db : List Listing) (l : Listing) :
    (l ∈ ListingViews.get_queryset DRFAction.list db ↔
      l ∈ db ∧ l.status = approvedStatus) ∧
    (∀ a : DRFAction, a ≠ DRFAction.list → ListingViews.get_queryset a db = db) ∧
    ((db.map (fun x => x.property_id)).Nodup → l ∈ db → l.status ≠ approvedStatus →
      l ∉ ListingViews.get_queryset DRFAction.list db ∧
      ListingViews.retrieveAction l.property_id db = some l) := by
  have h1 : l ∈ ListingViews.get_queryset DRFAction.list db ↔
      l ∈ db ∧ l.status = approvedStatus := by
    simp [ListingViews.get_queryset, List.mem_filter, beq_iff_eq]
  refine ⟨h1, ?_, ?_⟩
  · intro a ha
    simp [ListingViews.get_queryset, ha]
  · intro hnd hmem hns
    refine ⟨fun hcon => hns (h1.mp hcon).2, ?_⟩
    exact find?_of_mem_nodup db l hnd hmem

/-- Witness for C7: a pending listing with ID 1 is invisible to the list
action but retrieved directly by its ID. -/
theorem list_scoped_to_approved_witness :
    (⟨1, 9, listingPendingStatus⟩ : Listing) ∉
        ListingViews.get_queryset DRFAction.list [⟨1, 9, listingPendingStatus⟩] ∧
      ListingViews.retrieveAction 1 [⟨1, 9, listingPendingStatus⟩] =
        some ⟨1, 9, listingPendingStatus⟩ :=
  (list_scoped_to_approved [⟨1, 9, listingPendingStatus⟩]
    ⟨1, 9, listingPendingStatus⟩).2.2 (by decide) (by decide) (by decide)

/-- C8 evidence: the permission machinery fails to produce the claimed
authorization gate on most mutating actions: on ListingViews the update
and destroy actions raise UnboundLocalError because the else branch only
assigns a misspelled local, and on BookingViews get_permissions returns
None for every action, so the framework permission check crashes instead
of rejecting the unauthenticated principal; only create on ListingViews
yields the IsAuthenticated gate the claim describes. -/
theorem mutating_permissions_crash :
    ListingViews.get_permissions DRFAction.create = .ok [Permission.isAuthenticated] ∧
    ListingViews.get_permissions DRFAction.update =
      .error (.unboundLocalError permissionClassesName) ∧
    ListingViews.get_permissions DRFAction.destroy =
      .error (.unboundLocalError permissionClassesName) ∧
    BookingViews.get_permissions DRFAction.create = none ∧
    BookingViews.get_permissions DRFAction.update = none ∧
    BookingViews.get_permissions DRFAction.destroy = none :=
  ⟨rfl, rfl, rfl, rfl, rfl, rfl⟩

/-- Counterexample for C9: for a principal with a guest profile, a
createListing whose entity save fails reports failure yet leaves the
profile table changed, the promotion to host having been committed, so
profile promotion and entity creation did not fail together. -/
theorem failed_create_changed_profile_counterexample :
    (ListingViews.perform_create 7 false ⟨[⟨7, guestRole⟩], [], []⟩).2 = false ∧
    (ListingViews.perform_create 7 false ⟨[⟨7, guestRole⟩], [], []⟩).1.profiles ≠
      [⟨7, guestRole⟩] :=
  ⟨rfl, by decide⟩

/-- C9 (amended): when entity creation fails, no listing or booking is
persisted, but the profile writes performed beforehand are kept: after
the failed call the acting principal has a profile with role host.
Profile promotion and entity creation therefore do not succeed or fail
together; promotion is never rolled back. -/
theorem failed_create_keeps_promotion (u : Nat) (r : BookingReq) (st : AppState) :
    ((ListingViews.perform_create u false st).2 = false ∧
      (ListingViews.perform_create u false st).1.listings = st.listings ∧
      profileRole (ListingViews.perform_create u false st).1.profiles u = some hostRole) ∧
    ((BookingViews.perform_create u r false st).2 = false ∧
      (BookingViews.perform_create u r false st).1.bookings = st.bookings ∧
      profileRole (BookingViews.perform_create u r false st).1.profiles u
        = some hostRole) := by
  refine ⟨⟨rfl, rfl, ?_⟩, ⟨rfl, rfl, ?_⟩⟩
  · rw [listing_create_profiles_eq]
    exact hostEnsure_role st.profiles u
  · rw [booking_create_profiles_eq]
    exact hostEnsure_role st.profiles u

/-- Counterexample for C10: on a request with present, valid dates the
availability action of BookingViews does not compute the conflict set and
return no value; it raises NameError for the undefined name reuest on
line 381 before reading any parameter. -/
theorem booking_availability_counterexample :
    BookingViews.availability 1 (some ("2024-01-01")) (some ("2024-01-07")) [] ≠
      .ok none ∧
    BookingViews.availability 1 (some ("2024-01-01")) (some ("2024-01-07")) [] =
      .error (.nameError reuestName) :=
  ⟨by decide, rfl⟩

/-- C10 (amended): for every request, the availability action of
BookingViews raises NameError on the undefined name reuest before any
parameter handling; it neither computes the conflict set nor returns a
response, and the return-less fall-through of the remaining body is
unreachable. -/
theorem booking_availability_raises_nameError (listing : Nat)
    (start_date end_date : Option String) (db : List Booking) :
    BookingViews.availability listing start_date end_date db =
      .error (.nameError reuestName) := rfl
